import Mathlib

/-! Verification of the TestFlows short log transform
(`testflows/_core/transform/log/short.py`) and of the specification report
formatter (`testflows/_core/cli/arg/handlers/report/specification.py`)
against their natural-language specification.  Events, the hierarchy maps
and the formatters are embedded as executable Lean definitions; the stream
state that the Python module keeps in module-level dictionaries is passed
explicitly. -/

namespace TestFlows

/-- Modelled from the spec: the reserved hierarchical separator character of
test identifiers.  Module `testflows._core.name` is not part of the provided
sources; its helpers `split`, `parentname` and `basename` are modelled from
the spec's description of path-like identifiers whose ancestors are obtained
by repeatedly stripping the last path segment. -/
def sepChar : Char := '/'

/-- Split a character list on a separator character, mirroring Python's
`str.split(sep)` for a one-character separator: the result always has at
least one (possibly empty) segment. -/
def splitOnChar (c : Char) : List Char → List (List Char)
  | [] => [[]]
  | x :: xs =>
    match splitOnChar c xs with
    | [] => [[]]
    | h :: t => if x = c then [] :: h :: t else (x :: h) :: t

/-- Join character-list segments with a separator character, mirroring
Python's `sep.join`. -/
def joinWithChar (c : Char) : List (List Char) → List Char
  | [] => []
  | [x] => x
  | x :: y :: t => x ++ c :: joinWithChar c (y :: t)

/-- Modelled from the spec: last path segment of an identifier (the `basename`
helper of `testflows._core.name`). -/
def basename (name : String) : String :=
  String.mk ((splitOnChar sepChar name.data).getLastD [])

/-- Modelled from the spec: the identifier with its last path segment removed
(the `parentname` helper of `testflows._core.name`). -/
def parentname (name : String) : String :=
  String.mk (joinWithChar sepChar (splitOnChar sepChar name.data).dropLast)

/-- The separator count of an identifier, mirroring `test_id.count('/')`. -/
def countSep (s : String) : Nat := s.data.count sepChar

/-- Python string repetition `s * n`. -/
def pyMul (s : String) (n : Nat) : String :=
  match n with
  | 0 => ""
  | n + 1 => s ++ pyMul s n

/-- The two-space indentation unit of the short transform (`indent = " " * 2`). -/
def indent : String := "  "

/-- Modelled from the spec: the terminal decoration capability
`color(text, color, attrs)` is an external collaborator whose ANSI escape
generation is explicitly out of scope, so it is modelled as returning the
decorated text unchanged. -/
def color (text : String) (c : String) (attrs : List String) : String := text

/-- Modelled from the spec: the `cursor_up()` terminal-control helper is part
of the out-of-scope decoration layer and is modelled as the empty string. -/
def cursor_up : String := ""

/-- Event kinds, following `testflows._core.message.Message`. -/
inductive Message where
  | NONE
  | TEST
  | RESULT
  | EXCEPTION
  | NOTE
  | DEBUG
  | TRACE
  | VERSION
  | PROTOCOL
  | INPUT
  | VALUE
  | METRIC
  | TICKET
  | ARGUMENT
  | TAG
  | ATTRIBUTE
  | REQUIREMENT
  | EXAMPLE
  | NODE
  | MAP
  | STOP
  deriving DecidableEq

/-- Modelled from the spec: the test node types listed by the data model
(module `testflows._core.testtype` is not part of the provided sources). -/
inductive TestType where
  | Module
  | Suite
  | Iteration
  | Step
  | Test
  deriving DecidableEq

/-- Modelled from the spec: the finer test subtypes listed by the data model. -/
inductive TestSubType where
  | Feature
  | Scenario
  | Background
  | Given
  | When
  | Then
  | By
  | But
  | Finally
  | And
  deriving DecidableEq

/-- Modelled from the spec: `flags` is a bit set with at minimum a "skip"
bit; the exact bit position carried by `testflows._core.flags.SKIP` is
immaterial to the transform's logic. -/
def SKIP : Nat := 1

/-- One structured log record, with the fields of the parsed message
dictionaries consumed by the short transform.  The subtype is optional,
mirroring `get_subtype`'s fallback when `test_subtype` names no member. -/
structure Msg where
  message_keyword : Message
  test_id : String := ""
  test_type : TestType := TestType.Test
  test_subtype : Option TestSubType := none
  test_flags : Nat := 0
  test_name : String := ""
  test_description : String := ""
  result_type : String := ""
  result_test : String := ""
  result_message : String := ""
  result_reason : String := ""
  attribute_name : String := ""
  attribute_value : String := ""
  message : String := ""
  deriving DecidableEq

/-- The mutable module state of `short.py`: the map of tests by id
(`tests_by_id`), the map of tests by parent (`tests_by_parent`) and the
last formatted message slot (`last_message`). -/
structure State where
  tests_by_id : String → Option Msg
  tests_by_parent : String → Option (List Msg)
  last_message : Option Msg

/-- The state of a process in which no event has been handled yet. -/
def initState : State :=
  { tests_by_id := fun _ => none
    tests_by_parent := fun _ => none
    last_message := none }

/-- The recorded children of a parent id (`tests_by_parent.get(pid, [])`). -/
def siblingsOf (st : State) (pid : String) : List Msg :=
  (st.tests_by_parent pid).getD []

/-- The second-to-last recorded child of a parent, as read by `and_keyword`
via `tests_by_parent[parent_id][-2]` when at least two children exist. -/
def prevSibling (st : State) (pid : String) : Option Msg :=
  let sibs := siblingsOf st pid
  if sibs.length > 1 then sibs[sibs.length - 2]? else none

/-- The keyword helpers of `short.py`; the decoration is the identity, so
they reduce to their `split(...)[-1]` projections. -/
def color_keyword (keyword : String) : String :=
  color (basename keyword) ("white") [("bold")]

/-- The `color_secondary_keyword` helper of `short.py`. -/
def color_secondary_keyword (keyword : String) : String :=
  color (basename keyword) ("white") [("bold"), ("dim")]

/-- The `color_test_name` helper of `short.py` (`split(name)[-1]`). -/
def color_test_name (name : String) : String :=
  color (basename name) ("white") []

/-- Python `str.startswith(pre)`, phrased over the character data so that
it evaluates by kernel reduction. -/
def pyStartsWith (s pre : String) : Bool := pre.data.isPrefixOf s.data

/-- The `color_result` helper of `short.py`. -/
def color_result (result : String) : String :=
  if pyStartsWith result ("X") then color result ("blue") [("bold")]
  else if result = ("OK") then color result ("green") [("bold")]
  else if result = ("Skip") then color result ("cyan") [("bold")]
  else color result ("red") [("bold")]

/-- Join a list of strings with a separator string, mirroring Python's
`sep.join(parts)`. -/
def joinSep (sep : String) : List String → String
  | [] => ""
  | [x] => x
  | x :: y :: t => x ++ sep ++ joinSep sep (y :: t)

/-- Right-strip of a character list, mirroring Python's `str.rstrip()`. -/
def pyRstripL (l : List Char) : List Char :=
  (l.reverse.dropWhile Char.isWhitespace).reverse

/-- Left-strip of a character list, mirroring Python's `str.lstrip()`. -/
def pyLstripWsL (l : List Char) : List Char :=
  l.dropWhile Char.isWhitespace

/-- Two-sided strip of a character list, mirroring Python's `str.strip()`. -/
def pyStripL (l : List Char) : List Char :=
  pyRstripL (pyLstripWsL l)

/-- Split at the first newline, mirroring Python's `text.split("\n", 1)`
unpacked into the part before and the part after the first newline. -/
def breakOnNl : List Char → List Char × List Char
  | [] => ([], [])
  | c :: cs =>
    if c = '\n' then ([], cs)
    else
      let p := breakOnNl cs
      (c :: p.1, p.2)

/-- The leading run of spaces and tabs of one line. -/
def leadWs (l : List Char) : List Char :=
  l.takeWhile (fun c => c == ' ' || c == '\t')

/-- The leading whitespace of a line that has further content, as collected
by `textwrap.dedent`'s leading-whitespace pattern; whitespace-only lines
contribute nothing. -/
def contentLead (l : List Char) : Option (List Char) :=
  let ws := leadWs l
  if ws.length < l.length then some ws else none

/-- Longest shared start of two character lists, as computed by
`textwrap.dedent`'s margin-merging loop. -/
def sharedStart : List Char → List Char → List Char
  | x :: xs, y :: ys => if x = y then x :: sharedStart xs ys else []
  | _, _ => []

/-- `textwrap.dedent`: remove the longest common leading whitespace of the
contentful lines from every line that starts with it. -/
def dedentL (s : List Char) : List Char :=
  let lines := splitOnChar '\n' s
  let margins := lines.filterMap contentLead
  let margin :=
    match margins with
    | [] => []
    | m :: ms => ms.foldl sharedStart m
  joinWithChar '\n' (lines.map (fun l => if margin.isPrefixOf l then l.drop margin.length else l))

/-- `textwrap.indent(text, pre)`: prepend `pre` to every line that is not
whitespace-only. -/
def pyIndentL (pre : List Char) (s : List Char) : List Char :=
  joinWithChar '\n' ((splitOnChar '\n' s).map (fun l => if (pyStripL l).isEmpty then l else pre ++ l))

/-- The `format_multiline` helper of `short.py`: keep the first line flowed,
dedent the remainder, and re-indent the whole block two spaces past the
containing indent. -/
def format_multiline (text : String) (ind : String) : String :=
  let s := pyRstripL text.data ++ ['\n']
  let p := breakOnNl s
  let first0 := pyStripL p.1
  let first1 := if first0.isEmpty then first0 else first0 ++ ['\n']
  let out := pyRstripL (first1 ++ dedentL (pyRstripL p.2))
  String.mk (pyIndentL (ind.data ++ [' ', ' ']) out)

/-- The `format_test_description` helper of `short.py`. -/
def format_test_description (msg : Msg) (ind : String) : String :=
  color (format_multiline msg.test_description ind) ("white") [("dim")] ++ "\n"

/-- The `format_input` formatter of `short.py`: the prompt line is indented
two spaces per separator of `test_id` (`indent * msg['test_id'].count('/')`). -/
def format_input (msg : Msg) (keyword : String) : String :=
  pyMul indent (countSep msg.test_id) ++
    color ("✋ " ++ msg.message) ("yellow") [("bold")] ++ cursor_up ++ "\n"

/-- The `format_attribute` formatter of `short.py`: an "Attributes" section
header is emitted only when the last formatted message exists and is not
itself an ATTRIBUTE; the name and value lines use the fixed module `indent`. -/
def format_attribute (msg : Msg) (st : State) : String :=
  let iInd := pyMul indent (countSep msg.test_id - 1)
  let header : List String :=
    match st.last_message with
    | some m =>
      if m.message_keyword = Message.ATTRIBUTE then []
      else [iInd ++ ("  ") ++ color_secondary_keyword ("Attributes")]
    | none => []
  let out := header ++
    [color (indent ++ ("  ") ++ msg.attribute_name) ("white") [("dim")],
     color (indent ++ ("    ") ++ msg.attribute_value) ("white") [("dim")]]
  joinSep ("\n") out ++ "\n"

/-- The `and_keyword` helper of `short.py`: called after the current step was
appended to its parent's child list, it rewrites the literal step keyword to
"And" when the immediately preceding sibling has the same subtype and no
recorded children, or when the parent itself has the subtype and the current
step is its only recorded child. -/
def and_keyword (msg : Msg) (parent_id : String) (keyword : String)
    (subtype : TestSubType) (st : State) : String :=
  let kw1 :=
    match prevSibling st parent_id with
    | some prev =>
      if prev.test_subtype = some subtype ∧ (st.tests_by_parent prev.test_id).isNone = true
      then ("And") else keyword
    | none => keyword
  match st.tests_by_id parent_id with
  | some parent =>
    if parent.test_subtype = some subtype ∧ (siblingsOf st parent_id).length = 1
    then ("And") else kw1
  | none => kw1

/-- The `format_test` formatter of `short.py`: it first records the event in
`tests_by_id` and in its parent's entry of `tests_by_parent` (creating the
child list lazily), then resolves the display keyword and formats the line. -/
def format_test (msg : Msg) (keyword : String) (st : State) : State × String :=
  let parent := parentname msg.test_id
  let newChildren := (st.tests_by_parent parent).getD [] ++ [msg]
  let st' : State :=
    { st with
      tests_by_parent := fun k => if k = parent then some newChildren else st.tests_by_parent k
      tests_by_id := fun k => if k = msg.test_id then some msg else st.tests_by_id k }
  let kw :=
    match msg.test_type with
    | TestType.Module => keyword ++ ("Module")
    | TestType.Suite =>
      if msg.test_subtype = some TestSubType.Feature then keyword ++ ("Feature")
      else keyword ++ ("Suite")
    | TestType.Iteration => keyword ++ ("Iteration")
    | TestType.Step =>
      match msg.test_subtype with
      | some TestSubType.And => keyword ++ ("And")
      | some TestSubType.Given => keyword ++ and_keyword msg parent ("Given") TestSubType.Given st'
      | some TestSubType.When => keyword ++ and_keyword msg parent ("When") TestSubType.When st'
      | some TestSubType.Then => keyword ++ and_keyword msg parent ("Then") TestSubType.Then st'
      | some TestSubType.By => keyword ++ and_keyword msg parent ("By") TestSubType.By st'
      | some TestSubType.But => keyword ++ and_keyword msg parent ("But") TestSubType.But st'
      | some TestSubType.Finally => keyword ++ and_keyword msg parent ("Finally") TestSubType.Finally st'
      | _ => keyword ++ ("Step")
    | TestType.Test =>
      if msg.test_subtype = some TestSubType.Scenario then keyword ++ ("Scenario")
      else if msg.test_subtype = some TestSubType.Background then keyword ++ ("Background")
      else keyword ++ ("Test")
  let iInd := pyMul indent (countSep msg.test_id - 1)
  let out := iInd ++ color_keyword kw ++ (" ") ++ color_test_name (basename msg.test_name) ++ "\n"
  let out := if msg.test_description = "" then out else out ++ format_test_description msg iInd
  (st', out)

/-- The `format_result` formatter of `short.py`: the line always shows the
indent and the color-coded result token; the test name (and message or
reason) is appended only for Fail, Error, Null and X-prefixed results. -/
def format_result (msg : Msg) : String :=
  let result := msg.result_type
  let rtoken := color_result result
  let tname := color_test_name (basename msg.result_test)
  let iInd := pyMul indent (countSep msg.test_id - 1)
  let out := iInd ++ rtoken
  let out :=
    if result = ("Fail") ∨ result = ("Error") ∨ result = ("Null") then
      let out := out ++ (" ") ++ tname
      if msg.result_message = "" then out
      else out ++ color_test_name (",") ++ (" ") ++
        color (String.mk (pyLstripWsL (format_multiline msg.result_message iInd).data)) ("yellow") [("bold")]
    else if pyStartsWith result ("X") then
      let out := out ++ (" ") ++ tname
      if msg.result_reason = "" then out
      else out ++ color_test_name (",") ++ (" ") ++ color msg.result_reason ("blue") [("bold")]
    else out
  out ++ "\n"

/-- The skip-suppression test of the transform loop:
`flags & SKIP and settings.show_skipped is False`. -/
def skipped (show_skipped : Bool) (msg : Msg) : Bool :=
  (msg.test_flags &&& SKIP != 0) && (show_skipped == false)

/-- One step of the `transform` loop of `short.py`: dispatch on the message
keyword through the `formatters` table, drop unknown kinds and skipped
events without touching `last_message`, and record the formatted message in
`last_message` otherwise.  The module-level maps are threaded as explicit
state. -/
def processEvent (show_skipped : Bool) (st : State) (line : Msg) : State × Option String :=
  match line.message_keyword with
  | Message.INPUT =>
    if skipped show_skipped line then (st, none)
    else ({ st with last_message := some line }, some (format_input line ("")))
  | Message.TEST =>
    if skipped show_skipped line then (st, none)
    else
      let r := format_test line ("") st
      ({ r.1 with last_message := some line }, some r.2)
  | Message.RESULT =>
    if skipped show_skipped line then (st, none)
    else ({ st with last_message := some line }, some (format_result line))
  | Message.ATTRIBUTE =>
    if skipped show_skipped line then (st, none)
    else ({ st with last_message := some line }, some (format_attribute line st))
  | _ => (st, none)

/-- Feeding a sequence of events through the transform, one at a time,
collecting one optional output block per event. -/
def processEvents (show_skipped : Bool) (st : State) : List Msg → State × List (Option String)
  | [] => (st, [])
  | m :: ms =>
    let r := processEvent show_skipped st m
    let rs := processEvents show_skipped r.1 ms
    (rs.1, r.2 :: rs.2)

/-- Python `str.upper()` on ASCII text. -/
def pyUpper (s : String) : String := String.mk (s.data.map Char.toUpper)

/-- Python `str.lstrip(chars)`: drop the leading characters drawn from the
given set. -/
def pyLstripChars (cs : List Char) (s : List Char) : List Char :=
  s.dropWhile (fun c => cs.contains c)

/-- The character class kept by the anchor slug: the characters matched by
`[a-zA-Z0-9-_\s]`, that is alphanumerics, hyphen, underscore and
whitespace. -/
def allowedChar (c : Char) : Bool :=
  (decide ('a' ≤ c) && decide (c ≤ 'z')) ||
  (decide ('A' ≤ c) && decide (c ≤ 'Z')) ||
  (decide ('0' ≤ c) && decide (c ≤ '9')) ||
  c == '-' || c == '_' || c.isWhitespace

/-- Replace every maximal run of whitespace by a single hyphen, mirroring
`re.sub(r"\s+", "-", text)`; the flag records whether the previous character
belonged to a whitespace run. -/
def collapseWsAux (inRun : Bool) : List Char → List Char
  | [] => []
  | c :: cs =>
    if c.isWhitespace then
      (if inRun then [] else ['-']) ++ collapseWsAux true cs
    else c :: collapseWsAux false cs

/-- The `anchor` slug of `specification.py`: lower-case the heading, strip
every character outside `[a-zA-Z0-9-_\s]`, then collapse each whitespace run
to one hyphen. -/
def anchor (heading : String) : String :=
  String.mk (collapseWsAux false ((heading.data.map Char.toLower).filter allowedChar))

/-- One test record as consumed by `Formatter.format_tests`, restricted to
the fields used by the section heading and the table-of-contents entry.  The
`id` path segments arrive as the decimal numerals of
`test["id"].split(sep)[1:]`, parsed here at the boundary as the `int(p)`
call of the source does. -/
structure SpecTest where
  idSegs : List Nat
  keyword : String
  name : String

/-- The enumerated comprehension
`["1" if i == 0 else str(int(p) + 1) for i, p in enumerate(...)]`. -/
def sectionNumAux (i : Nat) : List Nat → List String
  | [] => []
  | p :: ps => (if i = 0 then ("1") else toString (p + 1)) :: sectionNumAux (i + 1) ps

/-- The hierarchical section number of a test: the joined comprehension
above (`id` in `format_tests`). -/
def sectionNumber (segs : List Nat) : String :=
  joinSep (".") (sectionNumAux 0 segs)

/-- The heading line appended to the body:
`f"### 2.{id} {test['keyword'].upper()} **{test['name']}**\n"`. -/
def sectionLine (t : SpecTest) : String :=
  "### 2." ++ sectionNumber t.idSegs ++ (" ") ++ pyUpper t.keyword ++ (" **") ++ t.name ++ ("**\n")

/-- The heading recomputed from the body line as the source does:
`heading = s[-1].lstrip("# ").strip()`. -/
def headingOf (t : SpecTest) : String :=
  String.mk (pyStripL (pyLstripChars ['#', ' '] (sectionLine t).data))

/-- The link text of the table-of-contents entry:
`name = f"{test['keyword'].upper()} {test['name']}"`. -/
def tocName (t : SpecTest) : String :=
  pyUpper t.keyword ++ (" ") ++ t.name

/-- The indentation of the table-of-contents entry:
`len(id.split('.')) * '  '`. -/
def tocIndentOf (t : SpecTest) : String :=
  pyMul ("  ") (splitOnChar '.' (sectionNumber t.idSegs).data).length

/-- The table-of-contents entry appended for a test:
`f"{len(id.split('.')) * '  '}* 2.{id} [{name}](#{anchor(heading)})"`. -/
def tocEntry (t : SpecTest) : String :=
  tocIndentOf t ++ ("* 2.") ++ sectionNumber t.idSegs ++ (" [") ++ tocName t ++ ("](#") ++
    anchor (headingOf t) ++ (")")

/-- A Scenario test event with id `/A`, the parent of the concrete step
sequences below. -/
def scnA : Msg :=
  { message_keyword := Message.TEST, test_id := "/A", test_type := TestType.Test
    test_subtype := some TestSubType.Scenario, test_name := "/A" }

/-- First of three consecutive Given steps under `/A`. -/
def gX : Msg :=
  { message_keyword := Message.TEST, test_id := "/A/1", test_type := TestType.Step
    test_subtype := some TestSubType.Given, test_name := "/A/x" }

/-- Second of three consecutive Given steps under `/A`. -/
def gY : Msg :=
  { message_keyword := Message.TEST, test_id := "/A/2", test_type := TestType.Step
    test_subtype := some TestSubType.Given, test_name := "/A/y" }

/-- Third of three consecutive Given steps under `/A`. -/
def gZ : Msg :=
  { message_keyword := Message.TEST, test_id := "/A/3", test_type := TestType.Step
    test_subtype := some TestSubType.Given, test_name := "/A/z" }

/-- A Given step that is itself the parent of further Given steps. -/
def gP : Msg :=
  { message_keyword := Message.TEST, test_id := "/A/1", test_type := TestType.Step
    test_subtype := some TestSubType.Given, test_name := "/A/p" }

/-- First Given child of the Given step `gP`. -/
def cA : Msg :=
  { message_keyword := Message.TEST, test_id := "/A/1/1", test_type := TestType.Step
    test_subtype := some TestSubType.Given, test_name := "/A/1/a" }

/-- Second Given child of the Given step `gP`. -/
def cB : Msg :=
  { message_keyword := Message.TEST, test_id := "/A/1/2", test_type := TestType.Step
    test_subtype := some TestSubType.Given, test_name := "/A/1/b" }

/-- Third Given child of the Given step `gP`. -/
def cC : Msg :=
  { message_keyword := Message.TEST, test_id := "/A/1/3", test_type := TestType.Step
    test_subtype := some TestSubType.Given, test_name := "/A/1/c" }

/-- Claim C1 (amended).  For every Step event with subtype S in Given, When,
Then, By, But, Finally the resolved keyword is "And" exactly when the
sibling immediately preceding the current step has subtype S and no
recorded children, or the parent node has subtype S and the current step is
its first recorded child.  Three consecutive Given steps without children
under a parent whose own subtype is not Given render Given, And, And; when
the parent is itself a Given step, its first Given child also collapses to
And by the parent rule. -/
theorem C1_and_collapse :
    (∀ (st : State) (msg : Msg) (pid kw : String) (s : TestSubType), kw ≠ ("And") →
      (and_keyword msg pid kw s st = ("And") ↔
        ((∃ prev, prevSibling st pid = some prev ∧ prev.test_subtype = some s ∧
            st.tests_by_parent prev.test_id = none) ∨
         (∃ par, st.tests_by_id pid = some par ∧ par.test_subtype = some s ∧
            (siblingsOf st pid).length = 1))))
    ∧ (processEvents true initState [scnA, gX, gY, gZ]).2 =
        [some ("Scenario A\n"), some ("  Given x\n"), some ("  And y\n"), some ("  And z\n")]
    ∧ (processEvents true initState [scnA, gP, cA, cB, cC]).2 =
        [some ("Scenario A\n"), some ("  Given p\n"), some ("    And a\n"),
         some ("    And b\n"), some ("    And c\n")] := by
  refine ⟨?_, by decide, by decide⟩
  intro st msg pid kw s hkw
  unfold and_keyword
  rcases hp : prevSibling st pid with _ | prev <;>
    rcases hq : st.tests_by_id pid with _ | par <;>
      simp only [hp, hq] <;> (try split_ifs) <;>
        simp_all [Option.isNone_iff_eq_none]

/-- Claim C1, counterexample to the literal statement: three consecutive
Given steps with no children under the Given step `gP` render And, And, And
(the first collapses by the parent rule), not Given, And, And. -/
theorem C1_counterexample :
    (processEvents true initState [scnA, gP, cA, cB, cC]).2 =
      [some ("Scenario A\n"), some ("  Given p\n"), some ("    And a\n"),
       some ("    And b\n"), some ("    And c\n")] ∧
    some ("    And a\n") ≠ some ("    Given a\n") := by
  exact ⟨by decide, by decide⟩

/-- Claim C1, witness: the general characterization applied to the state in
which `/A` holds the two Given steps `gX, gY`, for the keyword of `gY`. -/
theorem C1_witness :
    ("Given" ≠ ("And")) ∧
    ((and_keyword gY ("/A") ("Given") TestSubType.Given
        (processEvents true initState [scnA, gX, gY]).1 = ("And")) ↔
      ((∃ prev, prevSibling (processEvents true initState [scnA, gX, gY]).1 ("/A") = some prev ∧
          prev.test_subtype = some TestSubType.Given ∧
          (processEvents true initState [scnA, gX, gY]).1.tests_by_parent prev.test_id = none) ∨
       (∃ par, (processEvents true initState [scnA, gX, gY]).1.tests_by_id ("/A") = some par ∧
          par.test_subtype = some TestSubType.Given ∧
          (siblingsOf (processEvents true initState [scnA, gX, gY]).1 ("/A")).length = 1))) :=
  ⟨by decide, C1_and_collapse.1 (processEvents true initState [scnA, gX, gY]).1 gY
    ("/A") ("Given") TestSubType.Given (by decide)⟩

/-- The Feature suite `/A` of the end-to-end scenario. -/
def fA : Msg :=
  { message_keyword := Message.TEST, test_id := "/A", test_type := TestType.Suite
    test_subtype := some TestSubType.Feature, test_name := "/A" }

/-- The first Given step of the end-to-end scenario. -/
def g1 : Msg :=
  { message_keyword := Message.TEST, test_id := "/A/1", test_type := TestType.Step
    test_subtype := some TestSubType.Given, test_name := "/A/setup" }

/-- The second Given step of the end-to-end scenario. -/
def g2 : Msg :=
  { message_keyword := Message.TEST, test_id := "/A/2", test_type := TestType.Step
    test_subtype := some TestSubType.Given, test_name := "/A/more setup" }

/-- The OK result of the end-to-end scenario. -/
def okR : Msg :=
  { message_keyword := Message.RESULT, test_id := "/A", result_type := "OK"
    result_test := "/A" }

/-- Claim C2 (amended).  Every RESULT line shows the indent and the
color-coded result token, but the test's display name is appended only for
Fail, Error, Null and X-prefixed result types; for OK and Skip the line is
the indent and the token alone, so the end-to-end scenario ends with a bare
`OK` line without the test name. -/
theorem C2_result_line :
    (∀ msg : Msg, msg.result_type = ("OK") ∨ msg.result_type = ("Skip") →
      format_result msg = pyMul indent (countSep msg.test_id - 1) ++ msg.result_type ++ "\n")
    ∧ (∀ msg : Msg,
        msg.result_type = ("Fail") ∨ msg.result_type = ("Error") ∨ msg.result_type = ("Null") →
      ∃ r, format_result msg = pyMul indent (countSep msg.test_id - 1) ++ msg.result_type ++
        (" ") ++ color_test_name (basename msg.result_test) ++ r)
    ∧ (∀ msg : Msg, pyStartsWith msg.result_type ("X") = true →
      ∃ r, format_result msg = pyMul indent (countSep msg.test_id - 1) ++ msg.result_type ++
        (" ") ++ color_test_name (basename msg.result_test) ++ r)
    ∧ (processEvents true initState [fA, g1, g2, okR]).2 =
        [some ("Feature A\n"), some ("  Given setup\n"), some ("  And more setup\n"),
         some ("OK\n")] := by
  refine ⟨?_, ?_, ?_, by decide⟩
  · intro msg h
    rcases h with h | h <;>
      simp [format_result, color_result, color, pyStartsWith, h, String.append_assoc]
  · intro msg h
    have hx : pyStartsWith msg.result_type ("X") = false := by
      rcases h with h | h | h <;> rw [h] <;> decide
    rcases h with h | h | h <;>
      (by_cases hm : msg.result_message = ""
       · exact ⟨"\n", by
           simp [format_result, color_result, color, h, hx, hm, String.append_assoc]⟩
       · exact ⟨color_test_name (",") ++ (" ") ++
             String.mk (pyLstripWsL (format_multiline msg.result_message
               (pyMul indent (countSep msg.test_id - 1))).data) ++ "\n", by
           simp [format_result, color_result, color, h, hx, hm, String.append_assoc]⟩)
  · intro msg hx
    have hf : ¬(msg.result_type = ("Fail") ∨ msg.result_type = ("Error") ∨
        msg.result_type = ("Null")) := by
      rintro (h | h | h) <;> rw [h] at hx <;> exact absurd hx (by decide)
    by_cases hr : msg.result_reason = ""
    · exact ⟨"\n", by
        simp [format_result, color_result, color, hx, hf, hr, String.append_assoc]⟩
    · exact ⟨color_test_name (",") ++ (" ") ++ msg.result_reason ++ "\n", by
        simp [format_result, color_result, color, hx, hf, hr, String.append_assoc]⟩

/-- Claim C2, counterexample to the literal statement: the OK result line of
the end-to-end scenario is the bare token `OK` and does not contain the
test's display name `A` at all. -/
theorem C2_counterexample :
    (processEvents true initState [fA, g1, g2, okR]).2 =
      [some ("Feature A\n"), some ("  Given setup\n"), some ("  And more setup\n"),
       some ("OK\n")] ∧
    (("OK\n").data.count 'A') = 0 := by
  exact ⟨by decide, by decide⟩

/-- Claim C2, witness: the amended theorem applied to the concrete OK result
and to a concrete Fail result with a message. -/
theorem C2_witness :
    (okR.result_type = ("OK") ∨ okR.result_type = ("Skip")) ∧
    format_result okR = pyMul indent (countSep okR.test_id - 1) ++ okR.result_type ++ "\n" :=
  ⟨Or.inl rfl, C2_result_line.1 okR (Or.inl rfl)⟩

/-- A Given step whose parent id `/B` was never recorded. -/
def orphG : Msg :=
  { message_keyword := Message.TEST, test_id := "/B/1", test_type := TestType.Step
    test_subtype := some TestSubType.Given, test_name := "/B/s" }

/-- Claim C3 (amended).  A TEST event whose parent id was never recorded is
not rejected: `format_test` silently records it in `tests_by_id`, creates
the parent's child list lazily, and the transform still produces a
formatted line. -/
theorem C3_orphan_recorded :
    ∀ (ss : Bool) (st : State) (msg : Msg), msg.message_keyword = Message.TEST →
      skipped ss msg = false →
      st.tests_by_id (parentname msg.test_id) = none →
      (((processEvent ss st msg).2).isSome = true ∧
       (processEvent ss st msg).1.tests_by_id msg.test_id = some msg ∧
       (processEvent ss st msg).1.tests_by_parent (parentname msg.test_id) =
         some (siblingsOf st (parentname msg.test_id) ++ [msg])) := by
  intro ss st msg hk hskip hparent
  refine ⟨?_, ?_, ?_⟩ <;> simp [processEvent, hk, hskip, format_test, siblingsOf]

/-- Claim C3, counterexample to the literal statement: the orphan Given step
`/B/1` is processed without any error, produces a formatted line, and is
recorded, although `/B` was never recorded. -/
theorem C3_counterexample :
    initState.tests_by_id ("/B") = none ∧
    (processEvent true initState orphG).2 = some ("  Given s\n") ∧
    (processEvent true initState orphG).1.tests_by_id ("/B/1") = some orphG ∧
    (processEvent true initState orphG).1.tests_by_parent ("/B") = some [orphG] := by
  exact ⟨by decide, by decide, by decide, by decide⟩

/-- Claim C3, witness: the amended theorem applied to the orphan Given step
fed to a fresh transform. -/
theorem C3_witness :
    (orphG.message_keyword = Message.TEST ∧ skipped true orphG = false ∧
     initState.tests_by_id (parentname orphG.test_id) = none) ∧
    (((processEvent true initState orphG).2).isSome = true ∧
     (processEvent true initState orphG).1.tests_by_id orphG.test_id = some orphG ∧
     (processEvent true initState orphG).1.tests_by_parent (parentname orphG.test_id) =
       some (siblingsOf initState (parentname orphG.test_id) ++ [orphG])) :=
  ⟨⟨by decide, by decide, by decide⟩,
   C3_orphan_recorded true initState orphG (by decide) (by decide) (by decide)⟩

/-- Claim C4 (amended).  Recording a second TEST event with an already
recorded id raises no error: the second event silently overwrites the first
one's entry in `tests_by_id` and is appended as one more child of the same
parent. -/
theorem C4_dup_overwrites :
    ∀ (st : State) (m1 m2 : Msg) (kw1 kw2 : String), m1.test_id = m2.test_id →
      ((format_test m2 kw2 (format_test m1 kw1 st).1).1.tests_by_id m2.test_id = some m2 ∧
       (siblingsOf (format_test m2 kw2 (format_test m1 kw1 st).1).1
           (parentname m2.test_id)).length =
         (siblingsOf st (parentname m2.test_id)).length + 2) := by
  intro st m1 m2 kw1 kw2 h
  refine ⟨?_, ?_⟩ <;> simp [format_test, siblingsOf, h]

/-- Claim C4, counterexample to the literal statement: `gX` and `gP` share
the id `/A/1`; processing both records the second without any error (a line
is still produced) and overwrites the id map entry of the first. -/
theorem C4_counterexample :
    (processEvents true initState [scnA, gX, gP]).1.tests_by_id ("/A/1") = some gP ∧
    gP ≠ gX ∧
    (processEvents true initState [scnA, gX, gP]).2 =
      [some ("Scenario A\n"), some ("  Given x\n"), some ("  And p\n")] := by
  exact ⟨by decide, by decide, by decide⟩

/-- Claim C4, witness: the amended theorem applied to the duplicate pair
`gX`, `gP` on the fresh state. -/
theorem C4_witness :
    (gX.test_id = gP.test_id) ∧
    ((format_test gP ("") (format_test gX ("") initState).1).1.tests_by_id gP.test_id =
       some gP ∧
     (siblingsOf (format_test gP ("") (format_test gX ("") initState).1).1
         (parentname gP.test_id)).length =
       (siblingsOf initState (parentname gP.test_id)).length + 2) :=
  ⟨by decide, C4_dup_overwrites initState gX gP ("") ("") (by decide)⟩

/-- The condition of the amended claim C5: some event was rendered before
and it was not itself an attribute. -/
def headerExpected (st : State) : Bool :=
  match st.last_message with
  | some m => if m.message_keyword = Message.ATTRIBUTE then false else true
  | none => false

/-- First attribute of the grouping scenario, on test `/A`. -/
def at1 : Msg :=
  { message_keyword := Message.ATTRIBUTE, test_id := "/A"
    attribute_name := "n1", attribute_value := "v1" }

/-- Second attribute of the grouping scenario, on test `/A`. -/
def at2 : Msg :=
  { message_keyword := Message.ATTRIBUTE, test_id := "/A"
    attribute_name := "n2", attribute_value := "v2" }

/-- Third attribute of the grouping scenario, on the later test `/A/1`. -/
def at3 : Msg :=
  { message_keyword := Message.ATTRIBUTE, test_id := "/A/1"
    attribute_name := "n3", attribute_value := "v3" }

/-- An event of a kind without a registered formatter. -/
def noteN : Msg := { message_keyword := Message.NOTE, test_id := "/A" }

/-- Claim C5 (amended).  An ATTRIBUTE event is prefixed with the
"Attributes" section header exactly when some event was rendered before and
it was not itself an attribute; when nothing has been rendered yet, no
header is emitted.  Two consecutive attributes share one header and a later
attribute after another rendered event gets a fresh header. -/
theorem C5_attr_header :
    (∀ (st : State) (msg : Msg),
      format_attribute msg st =
        (if headerExpected st then
           pyMul indent (countSep msg.test_id - 1) ++ ("  ") ++ ("Attributes") ++ "\n"
         else "") ++
        (indent ++ ("  ") ++ msg.attribute_name ++ "\n") ++
        (indent ++ ("    ") ++ msg.attribute_value ++ "\n"))
    ∧ (processEvents true initState [fA, at1, at2, g1, at3]).2 =
        [some ("Feature A\n"),
         some ("  Attributes\n    n1\n      v1\n"),
         some ("    n2\n      v2\n"),
         some ("  Given setup\n"),
         some ("    Attributes\n    n3\n      v3\n")] := by
  refine ⟨?_, by decide⟩
  intro st msg
  have hA : color_secondary_keyword ("Attributes") = ("Attributes") := rfl
  rcases hl : st.last_message with _ | m
  · simp [format_attribute, headerExpected, hl, joinSep, color, String.append_assoc]
  · by_cases hm : m.message_keyword = Message.ATTRIBUTE <;>
      simp [format_attribute, headerExpected, hl, hm, hA, joinSep, color, String.append_assoc]

/-- Claim C5, counterexample to the literal statement: when no event has
been rendered yet the code omits the header, although the claim requires
one; the produced block contains no capital `A` and hence no "Attributes"
header at all. -/
theorem C5_counterexample :
    initState.last_message = none ∧
    (processEvent true initState at1).2 = some ("    n1\n      v1\n") ∧
    (("    n1\n      v1\n").data.count 'A') = 0 := by
  exact ⟨rfl, by decide, by decide⟩

/-- Claim C6 (amended).  After one event is processed the `last_message`
slot holds that event when a block was produced, and otherwise keeps its
previous content unchanged (it is not reset to none on dropped events). -/
theorem C6_last_message :
    ∀ (ss : Bool) (st : State) (msg : Msg),
      (processEvent ss st msg).1.last_message =
        (if ((processEvent ss st msg).2).isSome then some msg else st.last_message) := by
  intro ss st msg
  rcases hk : msg.message_keyword <;>
    (simp [processEvent, hk] <;> (try split) <;> simp)

/-- Claim C6, counterexample to the literal statement: an unformatted NOTE
event after a formatted TEST event produces no output, yet the slot still
holds the TEST event instead of none. -/
theorem C6_counterexample :
    (processEvents true initState [fA, noteN]).2 = [some ("Feature A\n"), none] ∧
    (processEvents true initState [fA, noteN]).1.last_message = some fA := by
  exact ⟨by decide, by decide⟩

/-- Claim C7.  The hierarchy maps and the last-message slot of `short.py`
are module-level, so a second transform in the same process starts from the
first run's final state: replaying the identical two-event log renders
`And setup` instead of `Given setup`, and the two runs' outputs differ. -/
theorem C7_state_leak :
    (processEvents true initState [fA, g1]).2 =
      [some ("Feature A\n"), some ("  Given setup\n")] ∧
    (processEvents true (processEvents true initState [fA, g1]).1 [fA, g1]).2 =
      [some ("Feature A\n"), some ("  And setup\n")] ∧
    (processEvents true (processEvents true initState [fA, g1]).1 [fA, g1]).2 ≠
      (processEvents true initState [fA, g1]).2 := by
  exact ⟨by decide, by decide, by decide⟩

/-- Helper: right-stripping a block that ends in two stars and a newline
removes exactly the newline. -/
theorem rstrip_fin (A : List Char) :
    pyRstripL (A ++ ['*', '*', '\n']) = A ++ ['*', '*'] := by
  unfold pyRstripL
  rw [List.reverse_append]
  have h1 : (['*', '*', '\n'] : List Char).reverse = ['\n', '*', '*'] := rfl
  rw [h1]
  have h2 : List.dropWhile Char.isWhitespace ('\n' :: '*' :: '*' :: A.reverse) =
      '*' :: '*' :: A.reverse := rfl
  simp only [List.cons_append, List.nil_append, h2, List.reverse_cons, List.reverse_reverse,
    List.append_assoc]

/-- Helper: the `lstrip("# ").strip()` recomputation applied to a rendered
heading line returns exactly the heading text. -/
theorem strip_heading_list (M : List Char) :
    pyStripL (pyLstripChars ['#', ' ']
      ('#' :: '#' :: '#' :: ' ' :: '2' :: '.' :: (M ++ ['*', '*', '\n']))) =
    '2' :: '.' :: (M ++ ['*', '*']) := by
  have h1 : pyLstripChars ['#', ' ']
      ('#' :: '#' :: '#' :: ' ' :: '2' :: '.' :: (M ++ ['*', '*', '\n'])) =
      '2' :: '.' :: (M ++ ['*', '*', '\n']) := rfl
  rw [h1]
  unfold pyStripL
  have h2 : pyLstripWsL ('2' :: '.' :: (M ++ ['*', '*', '\n'])) =
      '2' :: '.' :: (M ++ ['*', '*', '\n']) := rfl
  rw [h2]
  have h3 : '2' :: '.' :: (M ++ ['*', '*', '\n']) = ('2' :: '.' :: M) ++ ['*', '*', '\n'] := by
    simp
  rw [h3, rstrip_fin]
  simp

/-- Helper: the heading recomputed from the rendered body line equals the
heading text itself. -/
theorem headingOf_eq (t : SpecTest) :
    headingOf t =
      "2." ++ sectionNumber t.idSegs ++ (" ") ++ pyUpper t.keyword ++ (" **") ++
        t.name ++ ("**") := by
  have e1 : ("### 2.").data = ['#', '#', '#', ' ', '2', '.'] := rfl
  have e2 : (" ").data = [' '] := rfl
  have e3 : (" **").data = [' ', '*', '*'] := rfl
  have e4 : ("**\n").data = ['*', '*', '\n'] := rfl
  have e5 : ("2.").data = ['2', '.'] := rfl
  have e6 : ("**").data = ['*', '*'] := rfl
  apply String.ext
  have hdata : (sectionLine t).data =
      '#' :: '#' :: '#' :: ' ' :: '2' :: '.' ::
        (((sectionNumber t.idSegs).data ++ ([' '] ++ ((pyUpper t.keyword).data ++
          ([' ', '*', '*'] ++ t.name.data)))) ++ ['*', '*', '\n']) := by
    simp [sectionLine, e1, e2, e3, e4]
  show pyStripL (pyLstripChars ['#', ' '] (sectionLine t).data) = _
  rw [hdata, strip_heading_list]
  simp [e2, e3, e5, e6]

/-- Claim C8.  For every rendered test section, the body line is exactly
`"### "` followed by the heading, and the table-of-contents entry links to
`anchor` of that same heading, where `anchor` lower-cases, strips all
characters outside alphanumerics, whitespace, hyphen and underscore, and
collapses whitespace runs to single hyphens — checked on a punctuated
mixed-case heading. -/
theorem C8_anchor_roundtrip :
    (∀ t : SpecTest,
      sectionLine t = "### " ++ headingOf t ++ "\n" ∧
      tocEntry t = tocIndentOf t ++ ("* 2.") ++ sectionNumber t.idSegs ++ (" [") ++
        tocName t ++ ("](#") ++ anchor (headingOf t) ++ (")"))
    ∧ anchor ("2.1.2 SCENARIO **My, Test!**") = ("212-scenario-my-test") := by
  refine ⟨fun t => ⟨?_, rfl⟩, by decide⟩
  rw [headingOf_eq]
  apply String.ext
  have e1 : ("### 2.").data = ['#', '#', '#', ' ', '2', '.'] := rfl
  have e4 : ("**\n").data = ['*', '*', '\n'] := rfl
  have e5 : ("2.").data = ['2', '.'] := rfl
  have e6 : ("**").data = ['*', '*'] := rfl
  have e7 : ("### ").data = ['#', '#', '#', ' '] := rfl
  have e8 : ("\n").data = ['\n'] := rfl
  simp [sectionLine, e1, e4, e5, e6, e7, e8]

/-- Helper: away from index zero, the section-number comprehension renders
every numeral incremented by one. -/
theorem sectionNumAux_pos :
    ∀ (ps : List Nat) (i : Nat), i ≠ 0 →
      sectionNumAux i ps = ps.map (fun n => toString (n + 1)) := by
  intro ps
  induction ps with
  | nil => intro i h; rfl
  | cons p t ih =>
    intro i h
    simp [sectionNumAux, h, ih (i + 1) (by omega)]

/-- Claim C9.  The section number of a test whose id path segments are the
numerals `a :: rest` is `2.1.<...>`: the first segment is rendered as the
literal 1 whatever numeral it holds, and each later segment is rendered
incremented by one, so numbering is relative to each top-level test; on the
concrete path `/3/0/2` the number is `2.1.1.3`. -/
theorem C9_numbering :
    (∀ (kw nm : String) (a : Nat) (rest : List Nat),
      sectionNumber (a :: rest) =
        joinSep (".") (("1") :: rest.map (fun n => toString (n + 1))) ∧
      sectionLine { idSegs := a :: rest, keyword := kw, name := nm } =
        "### 2." ++ joinSep (".") (("1") :: rest.map (fun n => toString (n + 1))) ++
          (" ") ++ pyUpper kw ++ (" **") ++ nm ++ ("**\n"))
    ∧ sectionNumber [3, 0, 2] = ("1.1.3") := by
  refine ⟨?_, by decide⟩
  intro kw nm a rest
  have h : sectionNumber (a :: rest) =
      joinSep (".") (("1") :: rest.map (fun n => toString (n + 1))) := by
    unfold sectionNumber
    rw [show sectionNumAux 0 (a :: rest) = ("1") :: sectionNumAux 1 rest from rfl,
      sectionNumAux_pos rest 1 (by omega)]
  exact ⟨h, by rw [show sectionLine { idSegs := a :: rest, keyword := kw, name := nm } =
    "### 2." ++ sectionNumber (a :: rest) ++ (" ") ++ pyUpper kw ++ (" **") ++ nm ++ ("**\n")
    from rfl, h]⟩

/-- The statement that a string begins with the given prefix text. -/
def beginsWith (s p : String) : Prop := s.data.take p.data.length = p.data

/-- Claim C10 (amended).  The INPUT prompt line equals the indent repeated
once per separator of `test_id` followed by the prompt text, while TEST and
RESULT lines begin with the indent repeated once per separator minus one;
one more repetition appends exactly one further indent unit, so the prompt
sits one level deeper than its own test's line. -/
theorem C10_indentation :
    (∀ (msg : Msg) (kw : String),
      format_input msg kw = pyMul indent (countSep msg.test_id) ++
        (color ("✋ " ++ msg.message) ("yellow") [("bold")] ++ cursor_up ++ "\n"))
    ∧ (∀ (msg : Msg) (kw : String) (st : State),
      beginsWith (format_test msg kw st).2 (pyMul indent (countSep msg.test_id - 1)))
    ∧ (∀ msg : Msg,
      beginsWith (format_result msg) (pyMul indent (countSep msg.test_id - 1)))
    ∧ (∀ n : Nat, pyMul indent (n + 1) = pyMul indent n ++ indent) := by
  refine ⟨?_, ?_, ?_, ?_⟩
  · intro msg kw
    simp [format_input, String.append_assoc]
  · intro msg kw st
    unfold beginsWith
    by_cases hd : msg.test_description = "" <;>
      simp [format_test, hd, List.append_assoc, List.take_left]
  · intro msg
    unfold beginsWith
    simp only [format_result]
    split_ifs <;> simp [List.append_assoc, List.take_left]
  · intro n
    induction n with
    | zero => rfl
    | succ m ih =>
      calc pyMul indent (m + 1 + 1) = indent ++ pyMul indent (m + 1) := rfl
        _ = indent ++ (pyMul indent m ++ indent) := by rw [ih]
        _ = (indent ++ pyMul indent m) ++ indent := by rw [String.append_assoc]
        _ = pyMul indent (m + 1) ++ indent := rfl

/-- Claim C10, counterexample to the literal statement: with the
penultimate-rendered event an attribute, the attribute block for a test at
separator count 1 should, per the claim, start at indent zero with its
content, but every line of the block starts with spaces (the name and value
lines use fixed indents). -/
theorem C10_counterexample :
    pyMul indent (countSep at1.test_id - 1) = "" ∧
    format_attribute at1 { initState with last_message := some at2 } =
      ("    n1\n      v1\n") ∧
    (("    n1\n      v1\n").data.take 1 = [' ']) := by
  exact ⟨rfl, by decide, by decide⟩

end TestFlows
